import Mathlib

/-
Verification of the documentation subsystem of the `warp` fork
(src/src/document.rs and src/src/filters/cookie.rs).

The Rust code is shallowly embedded:
  * Rust `String` is Lean `String`; `str::replace` is modelled on `List Char`
    (leftmost, non-overlapping replacement of every occurrence).
  * `HashMap<u16, DocumentedResponse>` (route responses) is modelled as an
    association list `List (Nat × DocumentedResponse)`; the translator sorts
    the entries by key before use, exactly as the Rust code collects the map
    into a `Vec` and calls `sort_by_key`.
  * `openapiv3` output types are modelled with precisely the fields the code
    writes; fields the code always fills with crate defaults that carry no
    information (e.g. parameter `style`) are omitted.
  * Rust panics (`unimplemented!()`) are modelled by `Option`: `none` is a
    panic of `to_openapi`.
-/

/- ===== http::Method =====
`http::Method` has the eight methods matched by `to_openapi`, plus CONNECT
and arbitrary extension methods, which fall into its `_ => unimplemented!()`
arm. -/

inductive Method where
  | GET | POST | PUT | DELETE | HEAD | OPTIONS | PATCH | TRACE
  | CONNECT
  | extensionMethod (name : String)
deriving DecidableEq

/- ===== The documentation data model (src/src/document.rs, lines 10-101) ===== -/

inductive InternalDocumentedType where
  | Boolean | Float | Integer | String
deriving DecidableEq

/-- Embeds `DocumentedType` from document.rs: `Array(Box<DocumentedType>)`,
`Object(HashMap<String, DocumentedType>)` (modelled as an association list),
`Primitive{ty, documentation, required}`. -/
inductive DocumentedType where
  | Array : DocumentedType → DocumentedType
  | Object : List (String × DocumentedType) → DocumentedType
  | Primitive (ty : InternalDocumentedType) (documentation : Option String) (required : Bool)

def DocumentedType.boolean : DocumentedType :=
  .Primitive InternalDocumentedType.Boolean none true

def DocumentedType.float : DocumentedType :=
  .Primitive InternalDocumentedType.Float none true

def DocumentedType.integer : DocumentedType :=
  .Primitive InternalDocumentedType.Integer none true

def DocumentedType.string : DocumentedType :=
  .Primitive InternalDocumentedType.String none true

def DocumentedType.object (fields : List (String × DocumentedType)) : DocumentedType :=
  .Object fields

/-- The runtime type identities that `impl From<TypeId> for DocumentedType`
distinguishes: the ten Rust integer types, `String`, and everything else
(`other`, tagged with the type's name, e.g. "bool" or "f64"). -/
inductive TypeId where
  | u8 | u16 | u32 | u64 | u128
  | i8 | i16 | i32 | i64 | i128
  | string
  | other (tag : String)
deriving DecidableEq

/-- Embeds `impl From<TypeId> for DocumentedType` (document.rs lines 102-120). -/
def DocumentedType.fromTypeId : TypeId → DocumentedType
  | .u8 => DocumentedType.integer
  | .u16 => DocumentedType.integer
  | .u32 => DocumentedType.integer
  | .u64 => DocumentedType.integer
  | .u128 => DocumentedType.integer
  | .i8 => DocumentedType.integer
  | .i16 => DocumentedType.integer
  | .i32 => DocumentedType.integer
  | .i64 => DocumentedType.integer
  | .i128 => DocumentedType.integer
  | .string => DocumentedType.string
  | .other _ => DocumentedType.object []

/-- The integer-width kinds listed in the `From<TypeId>` match. -/
def TypeId.isIntegerKind : TypeId → Bool
  | .u8 | .u16 | .u32 | .u64 | .u128 => true
  | .i8 | .i16 | .i32 | .i64 | .i128 => true
  | _ => false

structure DocumentedCookie where
  name : String
  description : Option String
  required : Bool
deriving DecidableEq

structure DocumentedHeader where
  name : String
  description : Option String
  required : Bool
deriving DecidableEq

structure DocumentedParameter where
  name : String
  description : Option String
  parameter_type : DocumentedType

structure DocumentedQuery where
  name : String
  description : Option String
  parameter_type : DocumentedType
  required : Bool

structure DocumentedResponseBody where
  body : DocumentedType
  mime : Option String

structure DocumentedResponse where
  description : String
  headers : List DocumentedHeader
  body : List DocumentedResponseBody

/-- Embeds `RouteDocumentation` (document.rs lines 10-19).  The `responses`
`HashMap<u16, DocumentedResponse>` is an association list keyed by `Nat`. -/
structure RouteDocumentation where
  cookies : List DocumentedCookie
  headers : List DocumentedHeader
  method : Option Method
  parameters : List DocumentedParameter
  path : String
  queries : List DocumentedQuery
  responses : List (Nat × DocumentedResponse)

/-- Embeds `RouteDocumentation::default()`: every collection empty, no method,
empty path. -/
def RouteDocumentation.default : RouteDocumentation :=
  { cookies := [], headers := [], method := none, parameters := [],
    path := "", queries := [], responses := [] }

/- ===== The openapiv3 output model (the fields to_openapi writes) ===== -/

/-- Embeds `openapiv3::SchemaData`; the code sets only `description` and `nullable`,
all other fields stay at their defaults. -/
structure SchemaData where
  description : Option String
  nullable : Bool
deriving DecidableEq

def SchemaData.default : SchemaData := { description := none, nullable := false }

mutual

/-- Embeds `openapiv3::Schema` together with the `SchemaKind::Type` payloads the code
produces (the code only ever builds `SchemaKind::Type`, so the kind is the
`Type` payload directly).  `ReferenceOr::Item`/`Box` wrappers are dropped. -/
inductive Schema where
  | mk (schema_data : SchemaData) (schema_kind : SchemaKind)

inductive SchemaKind where
  | boolean
  | number
  | integer
  | string
  | array (items : Schema)
  | object (properties : List (String × Schema))

end

def Schema.schema_data : Schema → SchemaData
  | .mk d _ => d

def Schema.schema_kind : Schema → SchemaKind
  | .mk _ k => k

/-- The plain string schema built inline for header/query/cookie parameters
and for response headers. -/
def stringSchema : Schema := .mk SchemaData.default SchemaKind.string

/-- Embeds `openapiv3::ParameterData`; `format` is always
`ParameterSchemaOrContent::Schema(ReferenceOr::Item(..))` in the code, so it
is the schema itself.  `example`/`examples` (always `None`/default) omitted. -/
structure ParameterData where
  name : String
  description : Option String
  required : Bool
  deprecated : Option Bool
  format : Schema

/-- Embeds `openapiv3::Parameter`; `style` fields (always crate defaults) and
`allow_empty_value` (always `None`) are omitted; `allow_reserved` is kept. -/
inductive Parameter where
  | path (parameter_data : ParameterData)
  | header (parameter_data : ParameterData)
  | query (allow_reserved : Bool) (parameter_data : ParameterData)
  | cookie (parameter_data : ParameterData)

def Parameter.parameter_data : Parameter → ParameterData
  | .path d => d
  | .header d => d
  | .query _ d => d
  | .cookie d => d

/-- Embeds `openapiv3::Header` as built for response headers (description, required,
format; `style`/`deprecated`/examples omitted as crate defaults / `None`). -/
structure ResponseHeader where
  description : Option String
  required : Bool
  format : Schema

/-- Embeds `openapiv3::MediaType`: only `schema` is set by the code. -/
structure MediaType where
  schema : Option Schema

/-- Embeds `openapiv3::StatusCode::Code(u16)`. -/
inductive StatusCode where
  | code (n : Nat)
deriving DecidableEq

/-- Embeds `openapiv3::Response` as built by the code: description, named headers,
per-mime content. -/
structure Response where
  description : String
  headers : List (String × ResponseHeader)
  content : List (String × MediaType)

/-- Embeds `openapiv3::Operation`: the code fills `parameters` and
`responses.responses` (flattened here to a list of keyed entries). -/
structure Operation where
  parameters : List Parameter
  responses : List (StatusCode × Response)

/-- Embeds `openapiv3::PathItem`: the per-method operation slots the match at
document.rs lines 313-323 can assign. -/
structure PathItem where
  get : Option Operation
  put : Option Operation
  post : Option Operation
  delete : Option Operation
  options : Option Operation
  head : Option Operation
  patch : Option Operation
  trace : Option Operation

def PathItem.default : PathItem :=
  { get := none, put := none, post := none, delete := none,
    options := none, head := none, patch := none, trace := none }

/-- Embeds `openapiv3::OpenAPI`: the code sets `openapi` and `paths` (an insertion
ordered map, modelled as the list of entries produced by `collect()`). -/
structure OpenAPI where
  openapi : String
  paths : List (String × PathItem)

/- ===== The schema renderer (document.rs lines 175-215) ===== -/

mutual

/-- Embeds `documented_type_to_openapi` (document.rs lines 175-215): direct structural
recursion over `DocumentedType`. -/
def documented_type_to_openapi : DocumentedType → Schema
  | .Array i =>
      .mk SchemaData.default (SchemaKind.array (documented_type_to_openapi i))
  | .Object p =>
      .mk SchemaData.default (SchemaKind.object (documentedFieldsToOpenapi p))
  | .Primitive ty documentation required =>
      .mk { description := documentation, nullable := !required }
        (match ty with
          | .Boolean => SchemaKind.boolean
          | .Float => SchemaKind.number
          | .Integer => SchemaKind.integer
          | .String => SchemaKind.string)

/-- The `p.into_iter().map(..)` over an `Object`'s fields. -/
def documentedFieldsToOpenapi : List (String × DocumentedType) → List (String × Schema)
  | [] => []
  | (name, type_) :: rest =>
      (name, documented_type_to_openapi type_) :: documentedFieldsToOpenapi rest

end

/- ===== str::replace and the positional-placeholder renaming ===== -/

/-- Rust `str::replace`, on character lists: replace every (leftmost,
non-overlapping) occurrence of `pat` in `s` by `r`.  The patterns passed by
the code are of the form "{i}" and never empty; an empty pattern is returned
unchanged here. -/
def replaceList : List Char → List Char → List Char → List Char
  | [], _, _ => []
  | c :: cs, [], _ => c :: cs
  | c :: cs, p :: ps, r =>
      if (p :: ps).isPrefixOf (c :: cs) then
        r ++ replaceList ((c :: cs).drop (p :: ps).length) (p :: ps) r
      else
        c :: replaceList cs (p :: ps) r
termination_by s _ _ => s.length
decreasing_by
  all_goals simp [List.length_drop]
  all_goals omega

/-- Rust `String::replace` on Lean strings. -/
def replaceStr (s pat r : String) : String :=
  ⟨replaceList s.data pat.data r.data⟩

/-- The path rewriting performed by the `.enumerate().inspect(..)` closure of
`to_openapi` (document.rs line 220): for each parameter (in order), replace
the placeholder "{i}" by "{name}".  Placeholder braces are written with
\x7b/\x7d escapes. -/
def renamePath (path : String) (parameters : List DocumentedParameter) : String :=
  parameters.enum.foldl
    (fun p ip =>
      replaceStr p ("\x7b" ++ toString ip.1 ++ "\x7d") ("\x7b" ++ ip.2.name ++ "\x7d"))
    path

/- ===== The per-collection parameter/response conversions (the closures of
to_openapi, document.rs lines 217-311) ===== -/

/-- Path parameters (lines 221-229): location `path`, always required, the
parameter type rendered by the schema renderer. -/
def parameterToOpenapi (param : DocumentedParameter) : Parameter :=
  .path { name := param.name, description := param.description, required := true,
          deprecated := some false,
          format := documented_type_to_openapi param.parameter_type }

/-- Header parameters (lines 231-245): required flag carried over, schema is
the plain string schema. -/
def headerToOpenapi (header : DocumentedHeader) : Parameter :=
  .header { name := header.name, description := header.description,
            required := header.required, deprecated := some false,
            format := stringSchema }

/-- Query parameters (lines 246-265): required flag carried over, schema is
the plain string schema (`query.parameter_type` is not consulted). -/
def queryToOpenapi (query : DocumentedQuery) : Parameter :=
  .query false { name := query.name, description := query.description,
                 required := query.required, deprecated := some false,
                 format := stringSchema }

/-- Cookie parameters (lines 266-283): required flag carried over, schema is
the plain string schema. -/
def cookieToOpenapi (cookie : DocumentedCookie) : Parameter :=
  .cookie { name := cookie.name, description := cookie.description,
            required := cookie.required, deprecated := some false,
            format := stringSchema }

/-- Response headers (lines 291-302): `required` is hardcoded `false`. -/
def responseHeaderToOpenapi (header : DocumentedHeader) : String × ResponseHeader :=
  (header.name,
    { description := header.description, required := false, format := stringSchema })

/-- Response bodies (lines 303-308): keyed by mime, defaulting to "*/*". -/
def responseBodyToContent (body : DocumentedResponseBody) : String × MediaType :=
  (body.mime.getD "*/*", { schema := some (documented_type_to_openapi body.body) })

/-- One `responses` entry (lines 289-310). -/
def responseToOpenapi : Nat × DocumentedResponse → StatusCode × Response
  | (code, response) =>
      (StatusCode.code code,
        { description := response.description,
          headers := response.headers.map responseHeaderToOpenapi,
          content := response.body.map responseBodyToContent })

/-- Embeds `responses.sort_by_key(|(code, _)| *code)` (line 286): sort the collected
entries by status code ascending (insertion sort). -/
def insertByKey (x : Nat × DocumentedResponse) :
    List (Nat × DocumentedResponse) → List (Nat × DocumentedResponse)
  | [] => [x]
  | y :: ys => if y.1 ≤ x.1 then y :: insertByKey x ys else x :: y :: ys

def sortByKey : List (Nat × DocumentedResponse) → List (Nat × DocumentedResponse)
  | [] => []
  | x :: xs => insertByKey x (sortByKey xs)

/- ===== to_openapi (document.rs lines 158-333) ===== -/

/-- The `Operation` built for one route: parameters in the order the four
`operation.parameters.extend(..)` calls run (path parameters, then headers,
then queries, then cookies), responses sorted by status code.  The
`.enumerate()` index of the path-parameter iterator is only used by the
`inspect` path rewriting (`renamePath`); the mapped parameter itself drops
it, so the parameter list is a plain map. -/
def routeOperation (route : RouteDocumentation) : Operation :=
  { parameters :=
      route.parameters.map parameterToOpenapi
        ++ route.headers.map headerToOpenapi
        ++ route.queries.map queryToOpenapi
        ++ route.cookies.map cookieToOpenapi,
    responses := (sortByKey route.responses).map responseToOpenapi }

/-- The per-route closure of `to_openapi`: the `(path, PathItem)` entry, or
`none` for the `_ => unimplemented!()` panic on a method outside the eight
matched ones (document.rs lines 313-323). -/
def routeToEntry (route : RouteDocumentation) : Option (String × PathItem) :=
  let path := renamePath route.path route.parameters
  let operation := routeOperation route
  match route.method.getD Method.POST with
  | .GET => some (path, { PathItem.default with get := some operation })
  | .POST => some (path, { PathItem.default with post := some operation })
  | .PUT => some (path, { PathItem.default with put := some operation })
  | .DELETE => some (path, { PathItem.default with delete := some operation })
  | .HEAD => some (path, { PathItem.default with head := some operation })
  | .OPTIONS => some (path, { PathItem.default with options := some operation })
  | .PATCH => some (path, { PathItem.default with patch := some operation })
  | .TRACE => some (path, { PathItem.default with trace := some operation })
  | .CONNECT => none
  | .extensionMethod _ => none

/-- Embeds `routes.into_iter().map(..).collect()`: all entries, or the panic (`none`)
of the first failing route. -/
def collectEntries : List RouteDocumentation → Option (List (String × PathItem))
  | [] => some []
  | route :: rest =>
      match routeToEntry route, collectEntries rest with
      | some entry, some entries => some (entry :: entries)
      | _, _ => none

/-- Embeds `to_openapi` (document.rs lines 158-333).  `none` models a panic. -/
def to_openapi (routes : List RouteDocumentation) : Option OpenAPI :=
  (collectEntries routes).map (fun paths => { openapi := "3.0.0", paths := paths })

/- ===== The aggregation driver (document.rs lines 122-128) ===== -/

/-- The post-processing step of the driver: a record with an empty path gets
'/' pushed onto it (`route.path.push('/')`), all other records pass through
unchanged. -/
def normalizeRoute (route : RouteDocumentation) : RouteDocumentation :=
  if route.path.isEmpty then { route with path := route.path.push '/' } else route

/-- Embeds `describe` (document.rs lines 122-128): seed `RouteDocumentation::default()`,
run the root filter's describe capability `d`, normalize empty paths.  The
filter itself is represented by its describe capability. -/
def describe (d : RouteDocumentation → List RouteDocumentation) :
    List RouteDocumentation :=
  (d RouteDocumentation.default).map normalizeRoute

/- ===== Filters and the explicit-documentation wrapper
(document.rs lines 130-156) ===== -/

/-- A `FilterBase` implementor, seen through the two capabilities this
subsystem uses: `filter` (request matching, with its `Internal` token and
`Future` result left abstract) and `describe`.  `&mut RouteDocumentation`
callbacks become state-passing functions. -/
structure FilterModel (Internal Future : Type) where
  filter : Internal → Future
  describe : RouteDocumentation → List RouteDocumentation

/-- Embeds `ExplicitDocumentation<T, F>` (document.rs lines 130-140). -/
structure ExplicitDocumentation (Internal Future : Type) where
  item : FilterModel Internal Future
  callback : RouteDocumentation → RouteDocumentation

/-- Embeds `ExplicitDocumentation::filter` (lines 147-149): delegate to the wrapped
item. -/
def ExplicitDocumentation.filter {I F : Type} (e : ExplicitDocumentation I F)
    (internal : I) : F :=
  e.item.filter internal

/-- Embeds `ExplicitDocumentation::describe` (lines 151-155): apply the callback to
the incoming record, return that single record. -/
def ExplicitDocumentation.describe {I F : Type} (e : ExplicitDocumentation I F)
    (route : RouteDocumentation) : List RouteDocumentation :=
  [e.callback route]

/-- Modelled from the spec: the describe capability of the sequencing
combinator (`And`, in src/filters/and.rs, which is not under src/): call
through A, then for each resulting record independently call through B and
concatenate all outputs. -/
def andDescribe (a b : RouteDocumentation → List RouteDocumentation)
    (route : RouteDocumentation) : List RouteDocumentation :=
  (a route).flatMap b

/-- Modelled from the spec: the describe capability of the alternation
combinator (`Or`, in src/filters/or.rs, which is not under src/): each branch
receives an independent copy of the incoming record and the outputs are
concatenated. -/
def orDescribe (a b : RouteDocumentation → List RouteDocumentation)
    (route : RouteDocumentation) : List RouteDocumentation :=
  a route ++ b route

/- ===== The cookie filter (src/src/filters/cookie.rs lines 15-27) ===== -/

/-- Modelled from the spec: `RouteDocumentation::response`, the helper used by
the cookie filter's annotation closure to record a response; it is repository
code not under src/.  It stores the response under its status code in the
`responses` map (`HashMap::insert`: replace an existing key, else add). -/
def insertResponse (responses : List (Nat × DocumentedResponse)) (code : Nat)
    (response : DocumentedResponse) : List (Nat × DocumentedResponse) :=
  if responses.any (fun entry => entry.1 = code) then
    responses.map (fun entry => if entry.1 = code then (code, response) else entry)
  else
    responses ++ [(code, response)]

def RouteDocumentation.response (route : RouteDocumentation) (code : Nat)
    (response : DocumentedResponse) : RouteDocumentation :=
  { route with responses := insertResponse route.responses code response }

/-- Modelled from the spec: `RouteDocumentation::cookie`, the helper appending
a cookie entry to the record; repository code not under src/. -/
def RouteDocumentation.cookie (route : RouteDocumentation)
    (cookie : DocumentedCookie) : RouteDocumentation :=
  { route with cookies := route.cookies ++ [cookie] }

/-- The annotation closure of `fn cookie` (src/src/filters/cookie.rs lines
23-26): `document::response(400, None).description("Bad Response")` builds a
`DocumentedResponse` with that description, no headers and no body, and
`document::cookie(name).required(true)` builds a required cookie entry with no
description.  (The builder functions are repository code not under src/,
modelled from the spec and this call site.) -/
def cookieCallback (name : String) (route : RouteDocumentation) :
    RouteDocumentation :=
  (route.response 400 { description := "Bad Response", headers := [], body := [] }).cookie
    { name := name, description := none, required := true }

/-- Embeds `fn cookie(name)` as a documented filter: the explicit-documentation
wrapper (`document::explicit`) around the header-extraction filter `inner`,
whose matching behaviour is external to this subsystem. -/
def cookieFilter {I F : Type} (inner : FilterModel I F) (name : String) :
    ExplicitDocumentation I F :=
  { item := inner, callback := cookieCallback name }

/- ===== Shared helper lemmas ===== -/

theorem stringDataEq (a b : String) (h : a.data = b.data) : a = b := by
  cases a
  cases b
  exact congrArg String.mk h

theorem replaceList_nil (pat r : List Char) : replaceList [] pat r = [] := by
  simp [replaceList]

theorem replaceList_cons_unmatched (c : Char) (cs : List Char) (p : Char) (ps r : List Char)
    (h : ¬ (p :: ps).isPrefixOf (c :: cs) = true) :
    replaceList (c :: cs) (p :: ps) r = c :: replaceList cs (p :: ps) r := by
  rw [replaceList]
  simp [h]

theorem replaceList_head_match (p : Char) (ps tail r : List Char) :
    replaceList ((p :: ps) ++ tail) (p :: ps) r = r ++ replaceList tail (p :: ps) r := by
  have hpre : (p :: ps).isPrefixOf ((p :: ps) ++ tail) = true :=
    List.isPrefixOf_iff_prefix.mpr (List.prefix_append _ _)
  rw [List.cons_append, replaceList]
  rw [← List.cons_append, if_pos hpre]
  simp [List.drop_left]

theorem replaceList_skip_chunk (l tail : List Char) (p : Char) (ps r : List Char)
    (h : ∀ c ∈ l, c ≠ p) :
    replaceList (l ++ tail) (p :: ps) r = l ++ replaceList tail (p :: ps) r := by
  induction l with
  | nil => simp
  | cons c cl ih =>
      have hc : ¬ (p :: ps).isPrefixOf (c :: (cl ++ tail)) = true := by
        simp [List.isPrefixOf]
        intro hpc
        exact absurd hpc.symm (h c (by simp))
      rw [List.cons_append, replaceList_cons_unmatched _ _ _ _ _ hc,
        ih (fun x hx => h x (by simp [hx]))]
      simp

/-- Replacing "\x7b0\x7d" in the template "/a/\x7b0\x7d/b/\x7b1\x7d" splices the
replacement at the first placeholder, for any replacement. -/
theorem replace_first_placeholder (r : List Char) :
    replaceList ("/a/\x7b0\x7d/b/\x7b1\x7d".data) ('\x7b' :: ['0', '\x7d']) r
      = "/a/".data ++ r ++ "/b/\x7b1\x7d".data := by
  simp [replaceList, List.isPrefixOf]

/-- Replacing "\x7b1\x7d" after the first splice: when the first parameter's
name contains no opening brace and no digit, only the original second
placeholder is rewritten. -/
theorem replace_second_placeholder (n0 : List Char) (r : List Char)
    (h0 : ∀ c ∈ n0, c ≠ '\x7b' ∧ c.isDigit = false) :
    replaceList ("/a/".data ++ ('\x7b' :: n0 ++ ['\x7d']) ++ "/b/\x7b1\x7d".data)
        ('\x7b' :: ['1', '\x7d']) r
      = "/a/".data ++ ('\x7b' :: n0 ++ ['\x7d']) ++ "/b/".data ++ r := by
  have hA : replaceList ("/a/".data ++ (('\x7b' :: n0 ++ ['\x7d']) ++ "/b/\x7b1\x7d".data))
      ('\x7b' :: ['1', '\x7d']) r
      = "/a/".data ++ replaceList (('\x7b' :: n0 ++ ['\x7d']) ++ "/b/\x7b1\x7d".data)
          ('\x7b' :: ['1', '\x7d']) r :=
    replaceList_skip_chunk _ _ _ _ _ (by decide)
  have hc : ¬ ('\x7b' :: ['1', '\x7d']).isPrefixOf
      ('\x7b' :: (n0 ++ ['\x7d'] ++ "/b/\x7b1\x7d".data)) = true := by
    cases n0 with
    | nil => decide
    | cons c cl =>
        simp [List.isPrefixOf]
        intro h1
        have := (h0 c (by simp)).2
        rw [← h1] at this
        simp at this
  have hmid : replaceList (n0 ++ (['\x7d'] ++ "/b/\x7b1\x7d".data)) ('\x7b' :: ['1', '\x7d']) r
      = n0 ++ replaceList (['\x7d'] ++ "/b/\x7b1\x7d".data) ('\x7b' :: ['1', '\x7d']) r :=
    replaceList_skip_chunk _ _ _ _ _ (fun c hc => (h0 c hc).1)
  simp only [List.append_assoc, List.cons_append] at *
  rw [hA]
  rw [replaceList_cons_unmatched _ _ _ _ _ hc]
  rw [hmid]
  have hend2 : replaceList (['\x7d', '/', 'b', '/'] ++ (('\x7b' :: ['1', '\x7d']) ++ []))
      ('\x7b' :: ['1', '\x7d']) r
      = ['\x7d', '/', 'b', '/'] ++ (r ++ replaceList [] ('\x7b' :: ['1', '\x7d']) r) := by
    rw [replaceList_skip_chunk _ _ _ _ _ (by decide), replaceList_head_match]
  simp only [List.append_nil, replaceList_nil, List.cons_append, List.nil_append,
    List.append_assoc] at hend2 ⊢
  rw [hend2]

/-- The full two-placeholder rename, on the documentation records. -/
theorem renamePath_two (n0 n1 : String) (d0 d1 : Option String) (t0 t1 : DocumentedType)
    (h0 : ∀ c ∈ n0.data, c ≠ '\x7b' ∧ c.isDigit = false) :
    renamePath "/a/\x7b0\x7d/b/\x7b1\x7d"
      [{ name := n0, description := d0, parameter_type := t0 },
       { name := n1, description := d1, parameter_type := t1 }]
      = "/a/\x7b" ++ n0 ++ "\x7d/b/\x7b" ++ n1 ++ "\x7d" := by
  have hd0 : ("\x7b" ++ toString (0 : Nat) ++ "\x7d") = "\x7b0\x7d" := rfl
  have hd1 : ("\x7b" ++ toString (1 : Nat) ++ "\x7d") = "\x7b1\x7d" := rfl
  have hren : renamePath "/a/\x7b0\x7d/b/\x7b1\x7d"
      [{ name := n0, description := d0, parameter_type := t0 },
       { name := n1, description := d1, parameter_type := t1 }]
      = replaceStr (replaceStr "/a/\x7b0\x7d/b/\x7b1\x7d" "\x7b0\x7d" ("\x7b" ++ n0 ++ "\x7d"))
          "\x7b1\x7d" ("\x7b" ++ n1 ++ "\x7d") := by
    simp [renamePath, List.enum, List.enumFrom, List.foldl, hd0, hd1]
  rw [hren]
  apply stringDataEq
  have hr0 : ("\x7b" ++ n0 ++ "\x7d").data = '\x7b' :: n0.data ++ ['\x7d'] := by
    simp [String.data_append]
  have hr1 : ("\x7b" ++ n1 ++ "\x7d").data = '\x7b' :: n1.data ++ ['\x7d'] := by
    simp [String.data_append]
  have hlhs : (replaceStr (replaceStr "/a/\x7b0\x7d/b/\x7b1\x7d" "\x7b0\x7d"
        ("\x7b" ++ n0 ++ "\x7d")) "\x7b1\x7d" ("\x7b" ++ n1 ++ "\x7d")).data
      = replaceList
          (replaceList "/a/\x7b0\x7d/b/\x7b1\x7d".data ('\x7b' :: ['0', '\x7d'])
            ('\x7b' :: n0.data ++ ['\x7d']))
          ('\x7b' :: ['1', '\x7d']) ('\x7b' :: n1.data ++ ['\x7d']) := by
    simp [replaceStr, hr0, hr1]
  rw [hlhs, replace_first_placeholder]
  have hs2 := replace_second_placeholder n0.data ('\x7b' :: n1.data ++ ['\x7d']) h0
  simp only [List.append_assoc, List.cons_append, List.nil_append] at hs2 ⊢
  rw [hs2]
  simp [String.data_append]

/-- The HTTP methods `to_openapi` handles without panicking. -/
def methodSupported : Method → Bool
  | .CONNECT => false
  | .extensionMethod _ => false
  | _ => true

/-- Changing every query's `parameter_type` leaves the route's translation
unchanged (`queryToOpenapi` never reads it). -/
theorem routeToEntry_queries_map (r : RouteDocumentation)
    (f : DocumentedQuery → DocumentedType) :
    routeToEntry { r with queries := r.queries.map (fun q => { q with parameter_type := f q }) }
      = routeToEntry r := by
  have hq : (r.queries.map (fun q => { q with parameter_type := f q })).map queryToOpenapi
      = r.queries.map queryToOpenapi := by
    rw [List.map_map]
    rfl
  unfold routeToEntry routeOperation
  dsimp only
  rw [hq]

theorem collect_queries_map (routes : List RouteDocumentation)
    (f : DocumentedQuery → DocumentedType) :
    collectEntries (routes.map (fun r =>
        { r with queries := r.queries.map (fun q => { q with parameter_type := f q }) }))
      = collectEntries routes := by
  induction routes with
  | nil => rfl
  | cons r rest ih =>
      simp only [List.map_cons, collectEntries]
      rw [routeToEntry_queries_map, ih]

theorem length_flatMap_const {α β : Type} (l : List α) (f : α → List β) (k : Nat)
    (h : ∀ x ∈ l, (f x).length = k) : (l.flatMap f).length = l.length * k := by
  induction l with
  | nil => simp
  | cons x xs ih =>
      simp only [List.flatMap_cons, List.length_append, List.length_cons]
      rw [h x (by simp), ih (fun y hy => h y (by simp [hy]))]
      ring

/-- The operation `to_openapi` builds for the record the cookie filter's
annotation produces from an empty seed. -/
def cookieOperation (name : String) : Operation :=
  { parameters :=
      [Parameter.cookie
        ({ name := name,
           description := none,
           required := true,
           deprecated := some false,
           format := stringSchema } : ParameterData)],
    responses :=
      [(StatusCode.code 400,
        { description := "Bad Response", headers := [], content := [] })] }

/- ===== The claims ===== -/

/-- Claim C1: for sequential composition (A then B) the describe output is A's
describe followed by B's describe on each of A's records, concatenated, so
the count is (records from A) × (records from B per A-output); for
alternation (A or B) it is the concatenation of both branches' outputs on
independent copies of the incoming record, so the count is the sum. -/
theorem compose_describe_counts (a b : RouteDocumentation → List RouteDocumentation)
    (route : RouteDocumentation) (k : Nat) :
    orDescribe a b route = a route ++ b route
    ∧ (orDescribe a b route).length = (a route).length + (b route).length
    ∧ andDescribe a b route = (a route).flatMap b
    ∧ ((∀ x ∈ a route, (b x).length = k) →
        (andDescribe a b route).length = (a route).length * k) := by
  refine ⟨rfl, by simp [orDescribe], rfl, fun h => ?_⟩
  simpa [andDescribe] using length_flatMap_const (a route) b k h

theorem compose_describe_counts_witness :
    (∀ x ∈ [RouteDocumentation.default, RouteDocumentation.default],
        ([x] : List RouteDocumentation).length = 1)
    ∧ (andDescribe (fun r => [r, r]) (fun x => [x]) RouteDocumentation.default).length = 2 * 1
    ∧ (orDescribe (fun r => [r, r]) (fun x => [x]) RouteDocumentation.default).length = 2 + 1 := by
  refine ⟨fun x _ => rfl, ?_, ?_⟩
  · have h := (compose_describe_counts (fun r => [r, r]) (fun x => [x])
        RouteDocumentation.default 1).2.2.2 (fun x _ => rfl)
    simpa using h
  · have h := (compose_describe_counts (fun r => [r, r]) (fun x => [x])
        RouteDocumentation.default 1).2.1
    simpa using h

/-- Claim C2, counterexample: with parameters named "1" and "p1" (order matching
the placeholders \x7b0\x7d then \x7b1\x7d), the sequential replacement first
turns "\x7b0\x7d" into "\x7b1\x7d" and then rewrites both occurrences of
"\x7b1\x7d", so the rendered path is "/a/\x7bp1\x7d/b/\x7bp1\x7d" instead of
the claimed "/a/\x7b1\x7d/b/\x7bp1\x7d": an extra substitution happened. -/
theorem positional_rename_collision :
    (to_openapi [{ RouteDocumentation.default with
        path := "/a/\x7b0\x7d/b/\x7b1\x7d",
        parameters :=
          [{ name := "1", description := none, parameter_type := DocumentedType.integer },
           { name := "p1", description := none, parameter_type := DocumentedType.integer }] }]).map
      (fun doc => doc.paths.map Prod.fst)
      = some ["/a/\x7bp1\x7d/b/\x7bp1\x7d"]
    ∧ ("/a/\x7bp1\x7d/b/\x7bp1\x7d" : String) ≠ "/a/\x7b1\x7d/b/\x7bp1\x7d" := by
  constructor
  · have hd0 : ("\x7b" ++ toString (0 : Nat) ++ "\x7d") = "\x7b0\x7d" := rfl
    have hd1 : ("\x7b" ++ toString (1 : Nat) ++ "\x7d") = "\x7b1\x7d" := rfl
    have hpath : renamePath "/a/\x7b0\x7d/b/\x7b1\x7d"
        [{ name := "1", description := none, parameter_type := DocumentedType.integer },
         { name := "p1", description := none, parameter_type := DocumentedType.integer }]
        = "/a/\x7bp1\x7d/b/\x7bp1\x7d" := by
      apply stringDataEq
      simp [renamePath, List.enum, List.enumFrom, List.foldl, hd0, hd1, replaceStr,
        replaceList, List.isPrefixOf]
    simp [to_openapi, collectEntries, routeToEntry, hpath, RouteDocumentation.default]
  · decide

/-- Claim C2, amended: provided no parameter name contains an opening brace or a
digit, to_openapi renames each positional placeholder \x7bi\x7d to the name
of the i-th parameter in order and performs no other substitutions: for
parameters [p0, p1] and path "/a/\x7b0\x7d/b/\x7b1\x7d" the rendered path key
is "/a/\x7bp0.name\x7d/b/\x7bp1.name\x7d". -/
theorem positional_rename_order_preserving (n0 n1 : String) (d0 d1 : Option String)
    (t0 t1 : DocumentedType)
    (h0 : ∀ c ∈ n0.data, c ≠ '\x7b' ∧ c.isDigit = false)
    (_h1 : ∀ c ∈ n1.data, c ≠ '\x7b' ∧ c.isDigit = false) :
    (to_openapi [{ RouteDocumentation.default with
        path := "/a/\x7b0\x7d/b/\x7b1\x7d",
        parameters :=
          [{ name := n0, description := d0, parameter_type := t0 },
           { name := n1, description := d1, parameter_type := t1 }] }]).map
      (fun doc => doc.paths.map Prod.fst)
      = some ["/a/\x7b" ++ n0 ++ "\x7d/b/\x7b" ++ n1 ++ "\x7d"] := by
  have hpath := renamePath_two n0 n1 d0 d1 t0 t1 h0
  simp [to_openapi, collectEntries, routeToEntry, hpath, RouteDocumentation.default]

theorem positional_rename_order_preserving_witness :
    (∀ c ∈ ("id" : String).data, c ≠ '\x7b' ∧ c.isDigit = false)
    ∧ (∀ c ∈ ("user" : String).data, c ≠ '\x7b' ∧ c.isDigit = false)
    ∧ (to_openapi [{ RouteDocumentation.default with
        path := "/a/\x7b0\x7d/b/\x7b1\x7d",
        parameters :=
          [{ name := "id", description := none, parameter_type := DocumentedType.integer },
           { name := "user", description := none, parameter_type := DocumentedType.string }] }]).map
        (fun doc => doc.paths.map Prod.fst)
        = some ["/a/\x7bid\x7d/b/\x7buser\x7d"] := by
  refine ⟨by decide, by decide, ?_⟩
  have h := positional_rename_order_preserving "id" "user" none none
    DocumentedType.integer DocumentedType.string (by decide) (by decide)
  rw [show ("/a/\x7b" ++ "id" ++ "\x7d/b/\x7b" ++ "user" ++ "\x7d" : String)
    = "/a/\x7bid\x7d/b/\x7buser\x7d" from rfl] at h
  exact h

/-- Claim C3: ExplicitDocumentation::describe applies the callback to the incoming
partial record and returns exactly that one record; the wrapped unit's own
describe capability is never consulted (the result is the same for any
wrapped item). -/
theorem explicit_documentation_describe_spec {I F : Type}
    (e : ExplicitDocumentation I F) (route : RouteDocumentation) :
    e.describe route = [e.callback route]
    ∧ ∀ item2 : FilterModel I F,
        (ExplicitDocumentation.mk item2 e.callback).describe route = e.describe route :=
  ⟨rfl, fun _ => rfl⟩

/-- Claim C4: ExplicitDocumentation::filter delegates to the wrapped unit's filter,
so wrapping never changes the extract/match outcome on any input. -/
theorem explicit_documentation_filter_delegates {I F : Type}
    (item : FilterModel I F) (callback : RouteDocumentation → RouteDocumentation)
    (internal : I) :
    (ExplicitDocumentation.mk item callback).filter internal = item.filter internal :=
  rfl

/-- Claim C5: the aggregation driver seeds one default (empty) RouteDocumentation,
invokes the filter's describe on it, and rewrites the path of each resulting
record with an empty path to "/"; records with a non-empty path are
unchanged.  (Total by construction: no error outcome.) -/
theorem describe_driver_spec (d : RouteDocumentation → List RouteDocumentation) :
    describe d = (d RouteDocumentation.default).map normalizeRoute
    ∧ (∀ route : RouteDocumentation, route.path = "" →
        normalizeRoute route = { route with path := "/" })
    ∧ (∀ route : RouteDocumentation, route.path ≠ "" → normalizeRoute route = route) := by
  refine ⟨rfl, ?_, ?_⟩
  · intro route h
    simp [normalizeRoute, h]
    rfl
  · intro route h
    simp [normalizeRoute, String.isEmpty_iff, h]

theorem describe_driver_spec_witness :
    RouteDocumentation.default.path = ""
    ∧ normalizeRoute RouteDocumentation.default
        = { RouteDocumentation.default with path := "/" }
    ∧ ({ RouteDocumentation.default with path := "/x" } : RouteDocumentation).path ≠ ""
    ∧ normalizeRoute { RouteDocumentation.default with path := "/x" }
        = { RouteDocumentation.default with path := "/x" } :=
  ⟨rfl,
   (describe_driver_spec (fun _ => [])).2.1 RouteDocumentation.default rfl,
   by decide,
   (describe_driver_spec (fun _ => [])).2.2 _ (by decide)⟩

/-- Claim C6: the TypeId → DocumentedType conversion is total and pure (a Lean
function), maps every integer-width kind to integer(), the String kind to
string(), and every other TypeId to an empty object(). -/
theorem from_type_id_mapping :
    (∀ id : TypeId, id.isIntegerKind = true →
        DocumentedType.fromTypeId id = DocumentedType.integer)
    ∧ DocumentedType.fromTypeId TypeId.string = DocumentedType.string
    ∧ ∀ id : TypeId, id.isIntegerKind = false → id ≠ TypeId.string →
        DocumentedType.fromTypeId id = DocumentedType.object [] := by
  refine ⟨?_, rfl, ?_⟩
  · intro id h
    cases id <;> first | rfl | simp [TypeId.isIntegerKind] at h
  · intro id h hne
    cases id <;>
      first
        | rfl
        | exact absurd rfl hne
        | simp [TypeId.isIntegerKind] at h

theorem from_type_id_mapping_witness :
    (TypeId.u8.isIntegerKind = true
      ∧ DocumentedType.fromTypeId TypeId.u8 = DocumentedType.integer)
    ∧ ((TypeId.other "bool").isIntegerKind = false
      ∧ TypeId.other "bool" ≠ TypeId.string
      ∧ DocumentedType.fromTypeId (TypeId.other "bool") = DocumentedType.object []) :=
  ⟨⟨rfl, from_type_id_mapping.1 TypeId.u8 rfl⟩,
   ⟨rfl, by decide, from_type_id_mapping.2.2 (TypeId.other "bool") rfl (by decide)⟩⟩

/-- Claim C7, counterexample: a record carrying the CONNECT method reaches the
`_ => unimplemented!()` arm of the method match, so translation panics
(modelled as `none`) instead of producing a document. -/
theorem to_openapi_panics_on_connect :
    to_openapi [{ RouteDocumentation.default with method := some Method.CONNECT }] = none :=
  rfl

/-- Claim C7, amended: translation never panics on any list of records whose
methods (after the POST default) are among the eight the match handles
(GET, POST, PUT, DELETE, HEAD, OPTIONS, PATCH, TRACE); a record carrying any
other method (CONNECT or an extension method) panics. -/
theorem to_openapi_total_on_supported_methods (routes : List RouteDocumentation)
    (h : ∀ r ∈ routes, methodSupported (r.method.getD Method.POST) = true) :
    ∃ doc, to_openapi routes = some doc := by
  have h2 : ∃ entries, collectEntries routes = some entries := by
    induction routes with
    | nil => exact ⟨[], rfl⟩
    | cons route rest ih =>
        obtain ⟨entries, he⟩ := ih (fun r hr => h r (by simp [hr]))
        have hr := h route (by simp)
        have hsome : (routeToEntry route).isSome = true := by
          cases hm : route.method.getD Method.POST with
          | CONNECT => rw [hm] at hr; simp [methodSupported] at hr
          | extensionMethod s => rw [hm] at hr; simp [methodSupported] at hr
          | GET => simp [routeToEntry, hm]
          | POST => simp [routeToEntry, hm]
          | PUT => simp [routeToEntry, hm]
          | DELETE => simp [routeToEntry, hm]
          | HEAD => simp [routeToEntry, hm]
          | OPTIONS => simp [routeToEntry, hm]
          | PATCH => simp [routeToEntry, hm]
          | TRACE => simp [routeToEntry, hm]
        obtain ⟨entry, hent⟩ := Option.isSome_iff_exists.mp hsome
        exact ⟨entry :: entries, by simp [collectEntries, hent, he]⟩
  obtain ⟨entries, he⟩ := h2
  exact ⟨{ openapi := "3.0.0", paths := entries }, by simp [to_openapi, he]⟩

theorem to_openapi_total_on_supported_methods_witness :
    (∀ r ∈ [RouteDocumentation.default], methodSupported (r.method.getD Method.POST) = true)
    ∧ ∃ doc, to_openapi [RouteDocumentation.default] = some doc := by
  have hyp : ∀ r ∈ [RouteDocumentation.default],
      methodSupported (r.method.getD Method.POST) = true := by
    intro r hr
    simp at hr
    subst hr
    rfl
  exact ⟨hyp, to_openapi_total_on_supported_methods [RouteDocumentation.default] hyp⟩

/-- Claim C8: a record whose method is None is translated into the POST slot of
its PathItem; every other method slot of that PathItem stays empty. -/
theorem missing_method_defaults_to_post (route : RouteDocumentation)
    (h : route.method = none) :
    to_openapi [route]
      = some { openapi := "3.0.0",
               paths := [(renamePath route.path route.parameters,
                 { get := none, put := none, post := some (routeOperation route),
                   delete := none, options := none, head := none, patch := none,
                   trace := none })] } := by
  simp [to_openapi, collectEntries, routeToEntry, h, PathItem.default]

theorem missing_method_defaults_to_post_witness :
    RouteDocumentation.default.method = none
    ∧ to_openapi [RouteDocumentation.default]
        = some { openapi := "3.0.0",
                 paths := [("", { get := none, put := none,
                                  post := some ({ parameters := [],
                                                  responses := [] } : Operation),
                                  delete := none, options := none, head := none,
                                  patch := none, trace := none })] } :=
  ⟨rfl, missing_method_defaults_to_post RouteDocumentation.default rfl⟩

/-- Claim C9: the required-cookie filter documents itself, on every incoming
partial record, as exactly one record that appends a required cookie entry
with the given name and stores a 400 response with description
"Bad Response" and no body, leaving all other fields unchanged; translating
the record obtained from the default seed yields a cookie-located required
parameter and a 400 responses entry with that description and empty
content, in the POST slot at path key "". -/
theorem cookie_filter_documentation {I F : Type} (inner : FilterModel I F)
    (name : String) (r : RouteDocumentation) :
    (cookieFilter inner name).describe r = [cookieCallback name r]
    ∧ (cookieCallback name r).cookies
        = r.cookies ++ [{ name := name, description := none, required := true }]
    ∧ (cookieCallback name r).responses
        = insertResponse r.responses 400
            { description := "Bad Response", headers := [], body := [] }
    ∧ (cookieCallback name r).headers = r.headers
    ∧ (cookieCallback name r).method = r.method
    ∧ (cookieCallback name r).parameters = r.parameters
    ∧ (cookieCallback name r).path = r.path
    ∧ (cookieCallback name r).queries = r.queries
    ∧ to_openapi [cookieCallback name RouteDocumentation.default]
        = some { openapi := "3.0.0",
                 paths := [("", { get := none, put := none,
                                  post := some (cookieOperation name),
                                  delete := none, options := none, head := none,
                                  patch := none, trace := none })] } :=
  ⟨rfl, rfl, rfl, rfl, rfl, rfl, rfl, rfl, rfl⟩

/-- Claim C10: header, query and cookie parameters are all rendered with the plain
string schema; the query's required flag (like the header's and cookie's) is
carried through, while the DocumentedType stored in a query's
parameter_type is discarded and never affects the produced document. -/
theorem string_schema_parameters (routes : List RouteDocumentation)
    (f : DocumentedQuery → DocumentedType) :
    (∀ q : DocumentedQuery, (queryToOpenapi q).parameter_data.format = stringSchema
        ∧ (queryToOpenapi q).parameter_data.required = q.required)
    ∧ (∀ h : DocumentedHeader, (headerToOpenapi h).parameter_data.format = stringSchema
        ∧ (headerToOpenapi h).parameter_data.required = h.required)
    ∧ (∀ c : DocumentedCookie, (cookieToOpenapi c).parameter_data.format = stringSchema
        ∧ (cookieToOpenapi c).parameter_data.required = c.required)
    ∧ (∀ (q : DocumentedQuery) (t : DocumentedType),
        queryToOpenapi { q with parameter_type := t } = queryToOpenapi q)
    ∧ to_openapi (routes.map (fun r =>
        { r with queries := r.queries.map (fun q => { q with parameter_type := f q }) }))
        = to_openapi routes := by
  refine ⟨fun q => ⟨rfl, rfl⟩, fun h => ⟨rfl, rfl⟩, fun c => ⟨rfl, rfl⟩,
    fun q t => rfl, ?_⟩
  simp [to_openapi, collect_queries_map]
